import Mathlib

/-!
Verification of the DocsAgent multi-tenant permission resolution engine.

The definitions below are a shallow embedding of
`backend/services/permission_checker.py`,
`backend/models/tenant_permission_models.py`,
`backend/models/tenant_models.py` and
`backend/services/tenant_context.py`.

Database tables are embedded as Lean lists of records; SQLAlchemy
`query(...).filter(...).first()` becomes `List.find?`, `.all()` becomes
`List.filter`, and `.delete()` becomes a filter plus a match count.
Timestamps are natural numbers (an abstract clock); UUID columns are
strings. The Document/Folder parent lookups of `_get_parent_resource`
are embedded as the functions `doc_folder` and `folder_parent` of the
database state: `doc_folder d = some f` models a Document row with id
`d` whose `folder_id` column is `f`, and `none` models a missing row or
a NULL `folder_id` column (likewise for `folder_parent`).
-/

namespace DocsAgent

/-! Permission vocabulary (class `Permission` in tenant_permission_models.py). -/

namespace Permission

def NONE : Nat := 0
def READ : Nat := 1
def WRITE : Nat := 2
def DELETE : Nat := 4
def SHARE : Nat := 8
def ADMIN : Nat := 16
def DOWNLOAD : Nat := 32
def COMMENT : Nat := 64
def EXPORT : Nat := 128

def READER : Nat := READ ||| DOWNLOAD
def EDITOR : Nat := READ ||| WRITE ||| DOWNLOAD ||| COMMENT
def CONTRIBUTOR : Nat := READ ||| WRITE ||| DELETE ||| DOWNLOAD ||| COMMENT
def OWNER : Nat :=
  READ ||| WRITE ||| DELETE ||| SHARE ||| ADMIN ||| DOWNLOAD ||| COMMENT ||| EXPORT

/-- Python `Permission.has_permission`: `(user_perm & required_perm) == required_perm`. -/
def has_permission (user_perm required_perm : Nat) : Bool :=
  (user_perm &&& required_perm) == required_perm

end Permission

/-! Enumerations. -/

inductive ResourceType where
  | workspace
  | folder
  | document
deriving DecidableEq, Repr

inductive GranteeType where
  | user
  | role
  | department
deriving DecidableEq, Repr

inductive PlatformRole where
  | super_admin
  | ops
  | support
  | auditor
deriving DecidableEq, Repr

/-! Table rows. -/

/-- Row of `platform_admins` (class `PlatformAdmin`). -/
structure PlatformAdmin where
  user_id : Nat
  role : PlatformRole
  scope : Option String
deriving DecidableEq, Repr

/-- Row of `tenant_roles` (class `TenantRole`); only the columns the
permission checker reads. -/
structure TenantRole where
  id : String
  name : String
  level : Int
  permissions : Nat
deriving DecidableEq, Repr

/-- Row of `tenant_users` (class `TenantUser`). The `role` field embeds
both the `role_id` foreign key and the loaded `role` relationship. -/
structure TenantUser where
  user_id : Nat
  tenant_id : String
  role : Option TenantRole
  department_id : Option String
  status : String
deriving DecidableEq, Repr

/-- Row of `resource_permissions` (class `ResourcePermission`). -/
structure ResourcePermission where
  tenant_id : String
  resource_type : ResourceType
  resource_id : String
  grantee_type : GranteeType
  grantee_id : String
  permission : Nat
  inherit : Bool
  granted_by : Option Nat
  expires_at : Option Nat
deriving DecidableEq, Repr

/-- Python `ResourcePermission.is_expired`: true iff `expires_at` is set
and is strictly before the evaluation time. -/
def ResourcePermission.is_expired (p : ResourcePermission) (now : Nat) : Bool :=
  match p.expires_at with
  | some t => decide (t < now)
  | none => false

/-- The database state visible to the permission checker. -/
structure DB where
  platform_admins : List PlatformAdmin
  tenant_users : List TenantUser
  resource_permissions : List ResourcePermission
  doc_folder : String → Option String
  folder_parent : String → Option String
  now : Nat

/-- Python class `PermissionContext`. -/
structure PermissionContext where
  user_id : Nat
  tenant_id : String
  resource_type : ResourceType
  resource_id : String
  required_permission : Nat

/-! PermissionChecker (permission_checker.py). -/

/-- Python `PermissionChecker._is_platform_admin`: a row for this user id
exists in `platform_admins`; the role and scope columns are not read. -/
def is_platform_admin (db : DB) (user_id : Nat) : Bool :=
  db.platform_admins.any (fun a => a.user_id == user_id)

/-- Python `PermissionChecker._get_tenant_user`: first `tenant_users` row
matching user id, tenant id, and status "active". -/
def get_tenant_user (db : DB) (user_id : Nat) (tenant_id : String) : Option TenantUser :=
  db.tenant_users.find? (fun tu =>
    tu.user_id == user_id && tu.tenant_id == tenant_id && tu.status == "active")

/-- Python `PermissionChecker._belongs_to_tenant`: the same query as
`_get_tenant_user`, tested for existence. -/
def belongs_to_tenant (db : DB) (user_id : Nat) (tenant_id : String) : Bool :=
  (get_tenant_user db user_id tenant_id).isSome

/-- Grantee disjunction built in `_query_resource_permissions`: a direct
user grant always applies; a role grant applies only when the tenant
user row exists and carries a role id; a department grant only when it
carries a department id. -/
def grantee_matches (user_id : Nat) (tenant_user : Option TenantUser)
    (p : ResourcePermission) : Bool :=
  (p.grantee_type == GranteeType.user && p.grantee_id == toString user_id) ||
  (match tenant_user with
   | some tu =>
     (match tu.role with
      | some r => p.grantee_type == GranteeType.role && p.grantee_id == r.id
      | none => false) ||
     (match tu.department_id with
      | some d => p.grantee_type == GranteeType.department && p.grantee_id == d
      | none => false)
   | none => false)

/-- Python `PermissionChecker._query_resource_permissions`: filter the
grants on the exact resource by the grantee disjunction, drop expired
rows, and return the permission bitmasks. -/
def query_resource_permissions (db : DB) (tenant_id : String)
    (resource_type : ResourceType) (resource_id : String) (user_id : Nat)
    (tenant_user : Option TenantUser) : List Nat :=
  ((db.resource_permissions.filter (fun p =>
      p.tenant_id == tenant_id && p.resource_type == resource_type &&
      p.resource_id == resource_id && grantee_matches user_id tenant_user p)).filter
    (fun p => !(p.is_expired db.now))).map (fun p => p.permission)

/-- Python `PermissionChecker._get_parent_resource`: a document's parent
is its folder, a folder's parent is its parent folder, a workspace has
no parent; a missing row or a NULL parent column yields `none`. -/
def get_parent_resource (db : DB) (resource_type : ResourceType)
    (resource_id : String) : Option (ResourceType × String) :=
  match resource_type with
  | ResourceType.document => (db.doc_folder resource_id).map (fun f => (ResourceType.folder, f))
  | ResourceType.folder => (db.folder_parent resource_id).map (fun f => (ResourceType.folder, f))
  | ResourceType.workspace => none

/-- Python `max` over the non-empty permission list (`max(permissions)`
in `_get_resource_permission`). -/
def list_max : List Nat → Nat
  | [] => 0
  | x :: xs => xs.foldl max x

/-- The bounded loop body of `_get_resource_permission`: at each level
query the applicable grants; on a hit return the maximum; otherwise step
to the parent resource. `none` means the loop exited without a hit. -/
def resource_permission_walk (db : DB) (tenant_id : String) (user_id : Nat)
    (tenant_user : Option TenantUser) :
    Nat → ResourceType → String → Option Nat
  | 0, _, _ => none
  | fuel + 1, resource_type, resource_id =>
    if resource_id == "" then none
    else
      let permissions :=
        query_resource_permissions db tenant_id resource_type resource_id user_id tenant_user
      if permissions.isEmpty then
        match get_parent_resource db resource_type resource_id with
        | none => none
        | some (rt, rid) => resource_permission_walk db tenant_id user_id tenant_user fuel rt rid
      else some (list_max permissions)

/-- The `max_depth = 10` bound of `_get_resource_permission`. -/
def MAX_DEPTH : Nat := 10

/-- The role-default fallback at the end of `_get_resource_permission`:
the role default bitmask when the tenant user has a role, else
`Permission.NONE`. -/
def role_default (tenant_user : Option TenantUser) : Nat :=
  match tenant_user with
  | some tu =>
    match tu.role with
    | some r => r.permissions
    | none => Permission.NONE
  | none => Permission.NONE

/-- Python `PermissionChecker._get_resource_permission`. -/
def get_resource_permission (db : DB) (ctx : PermissionContext)
    (tenant_user : Option TenantUser) : Nat :=
  match resource_permission_walk db ctx.tenant_id ctx.user_id tenant_user
      MAX_DEPTH ctx.resource_type ctx.resource_id with
  | some p => p
  | none => role_default tenant_user

/-- The tenant-admin test of steps 3 of `check` and of
`get_user_permission`: the active membership carries a role named
exactly "tenant_admin". -/
def is_tenant_admin (tenant_user : Option TenantUser) : Bool :=
  match tenant_user with
  | some tu =>
    match tu.role with
    | some r => r.name == "tenant_admin"
    | none => false
  | none => false

/-- Python `PermissionChecker.get_user_permission` (effectivePermission). -/
def get_user_permission (db : DB) (ctx : PermissionContext) : Nat :=
  if is_platform_admin db ctx.user_id then Permission.OWNER
  else
    let tenant_user := get_tenant_user db ctx.user_id ctx.tenant_id
    if is_tenant_admin tenant_user then Permission.OWNER
    else get_resource_permission db ctx tenant_user

/-- The two HTTP 403 failure modes of `PermissionChecker.check`. -/
inductive CheckError where
  | membership_missing
  | insufficient_capability
deriving DecidableEq, Repr

/-- Python `PermissionChecker.check` (authorize): platform-admin bypass,
then the tenant membership gate, then the tenant-admin short-circuit,
then the resource permission requirement. -/
def check (db : DB) (ctx : PermissionContext) : Except CheckError Bool :=
  if is_platform_admin db ctx.user_id then Except.ok true
  else if !belongs_to_tenant db ctx.user_id ctx.tenant_id then
    Except.error CheckError.membership_missing
  else
    let tenant_user := get_tenant_user db ctx.user_id ctx.tenant_id
    if is_tenant_admin tenant_user then Except.ok true
    else if Permission.has_permission (get_resource_permission db ctx tenant_user)
        ctx.required_permission then Except.ok true
    else Except.error CheckError.insufficient_capability

/-! PermissionManager (permission_checker.py). The `resource_permissions`
table is the explicit list state; `grant_permission` and
`revoke_permission` return the updated table. -/

/-- The (tenant, resource type, resource id, grantee type, grantee id)
lookup key shared by `grant_permission` and `revoke_permission`. -/
def same_grant_key (tenant_id : String) (resource_type : ResourceType)
    (resource_id : String) (grantee_type : GranteeType) (grantee_id : String)
    (p : ResourcePermission) : Bool :=
  p.tenant_id == tenant_id && p.resource_type == resource_type &&
  p.resource_id == resource_id && p.grantee_type == grantee_type &&
  p.grantee_id == grantee_id

/-- Update the first list entry satisfying `f` in place (the SQLAlchemy
`first()` row mutated and committed). -/
def update_first {α : Type} (f : α → Bool) (g : α → α) : List α → List α
  | [] => []
  | x :: xs => if f x then g x :: xs else x :: update_first f g xs

/-- Python `PermissionManager.grant_permission`: when a row with the same
key exists, overwrite its permission, granted_by and expires_at in
place; otherwise append a fresh row (with the `inherit` column default
true). -/
def grant_permission (perms : List ResourcePermission) (tenant_id : String)
    (resource_type : ResourceType) (resource_id : String)
    (grantee_type : GranteeType) (grantee_id : String) (permission : Nat)
    (granted_by : Nat) (expires_at : Option Nat) : List ResourcePermission :=
  if perms.any (same_grant_key tenant_id resource_type resource_id grantee_type grantee_id) then
    update_first (same_grant_key tenant_id resource_type resource_id grantee_type grantee_id)
      (fun p => { p with
                  permission := permission,
                  granted_by := some granted_by,
                  expires_at := expires_at }) perms
  else
    perms ++ [{ tenant_id := tenant_id,
                resource_type := resource_type,
                resource_id := resource_id,
                grantee_type := grantee_type,
                grantee_id := grantee_id,
                permission := permission,
                inherit := true,
                granted_by := some granted_by,
                expires_at := expires_at }]

/-- Python `PermissionManager.revoke_permission`: delete every row
matching the key (the unique index allows at most one) and report
whether any row was deleted. -/
def revoke_permission (perms : List ResourcePermission) (tenant_id : String)
    (resource_type : ResourceType) (resource_id : String)
    (grantee_type : GranteeType) (grantee_id : String) :
    List ResourcePermission × Bool :=
  (perms.filter (fun p =>
      !(same_grant_key tenant_id resource_type resource_id grantee_type grantee_id p)),
   perms.any (same_grant_key tenant_id resource_type resource_id grantee_type grantee_id))

/-- Python `PermissionManager.list_resource_permissions`: all rows
attached to the exact resource. -/
def list_resource_permissions (perms : List ResourcePermission)
    (tenant_id : String) (resource_type : ResourceType) (resource_id : String) :
    List ResourcePermission :=
  perms.filter (fun p =>
    p.tenant_id == tenant_id && p.resource_type == resource_type &&
    p.resource_id == resource_id)

/-! Tenant model (tenant_models.py), restricted to the columns the
middleware reads. -/

inductive TenantStatus where
  | active
  | suspended
  | archived
  | trial
deriving DecidableEq, Repr

structure Tenant where
  id : String
  slug : String
  name : String
  status : TenantStatus
  expires_at : Option Nat
  trial_ends_at : Option Nat
deriving DecidableEq, Repr

/-- Python `Tenant.is_active`: status must be active or trial, the
subscription must not be expired, and a trial must not be past its end. -/
def Tenant.is_active (t : Tenant) (now : Nat) : Bool :=
  if t.status != TenantStatus.active && t.status != TenantStatus.trial then false
  else if (match t.expires_at with | some e => decide (e < now) | none => false) then false
  else if t.status == TenantStatus.trial &&
      (match t.trial_ends_at with | some e => decide (e < now) | none => false) then false
  else true

/-! TenantContext and TenantExtractor (tenant_context.py). The two
context variables are embedded as an explicit state record threaded
through the middleware. -/

structure ContextState where
  tenant : Option Tenant
  tenant_user : Option TenantUser
deriving Repr

namespace TenantContext

/-- Python `TenantContext.clear`: both context variables reset to None. -/
def clear (_ : ContextState) : ContextState := ⟨none, none⟩

/-- Python `TenantContext.set_tenant`. -/
def set_tenant (st : ContextState) (t : Tenant) : ContextState :=
  { st with tenant := some t }

end TenantContext

/-- The parts of the incoming request the extractor and middleware read.
`path_tenant_id` is the "tenant_id" path parameter when the key is
present (its value may be the empty string), likewise
`query_tenant_id`; `header_tenant_id` is the X-Tenant-ID header when
present; `host` is the Host header when present. -/
structure MWRequest where
  path : String
  path_tenant_id : Option String
  query_tenant_id : Option String
  header_tenant_id : Option String
  host : Option String

/-- The default tenant id returned by `extract_tenant_id` when every
other source is absent. -/
def DEFAULT_TENANT_ID : String := "00000000-0000-0000-0000-000000000001"

/-- Python `TenantExtractor._extract_slug_from_host`: drop the port,
split on dots, and when at least three labels remain return the first
label unless it is a reserved prefix. -/
def extract_slug_from_host (host : String) : Option String :=
  let host := (host.splitOn ":").headD ""
  let parts := host.splitOn "."
  if parts.length ≥ 3 then
    if ["www", "api", "admin", "app"].contains (parts.headD "") then none
    else some (parts.headD "")
  else none

/-- Python `TenantExtractor.extract_tenant_id`: path parameter, then
query parameter, then non-empty X-Tenant-ID header, then non-empty host
sub-domain slug, then the fixed default. -/
def extract_tenant_id (req : MWRequest) : String :=
  match req.path_tenant_id with
  | some t => t
  | none =>
    match req.query_tenant_id with
    | some t => t
    | none =>
      let header := (req.header_tenant_id).getD ""
      if header != "" then header
      else
        let slug := (extract_slug_from_host ((req.host).getD "")).getD ""
        if slug != "" then slug
        else DEFAULT_TENANT_ID

/-! TenantMiddleware (tenant_context.py). -/

/-- Hexadecimal digit test used by the UUID shape check. -/
def is_hex_digit (c : Char) : Bool :=
  c.isDigit || (c ≥ 'a' && c ≤ 'f') || (c ≥ 'A' && c ≤ 'F')

/-- Canonical 8-4-4-4-12 UUID shape; models `uuid.UUID(identifier)`
succeeding in `get_tenant_by_identifier`. -/
def is_uuid_like (s : String) : Bool :=
  ((s.splitOn "-").map String.length == [8, 4, 4, 4, 12]) &&
  s.toList.all (fun c => is_hex_digit c || c == '-')

/-- The middleware environment: the tenants table, the clock, and
whether downstream handling (`call_next`) returns normally. -/
structure MWEnv where
  tenants : List Tenant
  now : Nat
  downstream_ok : Bool

/-- Python `TenantExtractor.get_tenant_by_identifier`: UUID-shaped
identifiers are looked up by id, others by slug. -/
def get_tenant_by_identifier (env : MWEnv) (identifier : String) : Option Tenant :=
  if is_uuid_like identifier then env.tenants.find? (fun t => t.id == identifier)
  else env.tenants.find? (fun t => t.slug == identifier)

/-- Python `TenantMiddleware._should_skip`: the allow-list of path
prefixes that bypass tenant resolution. -/
def should_skip (path : String) : Bool :=
  ["/", "/health", "/docs", "/redoc", "/openapi.json", "/api/auth/register",
   "/api/auth/login", "/api/auth/me", "/api/platform"].any
    (fun p => p.isPrefixOf path)

/-- Outcome of one `dispatch` call: a response (carrying the diagnostic
X-Tenant-ID header when the context was set), a propagated HTTP error,
or an exception escaping `dispatch` itself. -/
inductive MWResult where
  | response (tenant_header : Option String)
  | http_error (code : Nat)
  | unhandled
deriving DecidableEq, Repr

/-- Python `TenantMiddleware.dispatch`: clear the context, serve
allow-listed paths directly, otherwise resolve and validate the tenant
inside a try block whose finally clause clears the context again. The
downstream handlers of this codebase never write the tenant context
variables, so `call_next` leaves the context state unchanged. -/
def dispatch (env : MWEnv) (req : MWRequest) (st : ContextState) :
    MWResult × ContextState :=
  let st := TenantContext.clear st
  if should_skip req.path then
    if env.downstream_ok then (MWResult.response none, st)
    else (MWResult.unhandled, st)
  else
    let result :=
      let identifier := extract_tenant_id req
      if identifier != "" then
        match get_tenant_by_identifier env identifier with
        | none => (MWResult.http_error 404, st)
        | some t =>
          if !(t.is_active env.now) then (MWResult.http_error 403, st)
          else
            let st := TenantContext.set_tenant st t
            if env.downstream_ok then (MWResult.response (some t.id), st)
            else (MWResult.http_error 500, st)
      else
        if env.downstream_ok then (MWResult.response none, st)
        else (MWResult.http_error 500, st)
    (result.1, TenantContext.clear result.2)

/-! Helper lemmas. -/

theorem is_platform_admin_set_perms (db : DB) (perms : List ResourcePermission)
    (u : Nat) :
    is_platform_admin { db with resource_permissions := perms } u =
      is_platform_admin db u := rfl

theorem get_tenant_user_set_perms (db : DB) (perms : List ResourcePermission)
    (u : Nat) (t : String) :
    get_tenant_user { db with resource_permissions := perms } u t =
      get_tenant_user db u t := rfl

theorem belongs_set_perms (db : DB) (perms : List ResourcePermission)
    (u : Nat) (t : String) :
    belongs_to_tenant { db with resource_permissions := perms } u t =
      belongs_to_tenant db u t := rfl

theorem check_ok_of_platform_admin (db : DB) (ctx : PermissionContext)
    (h : is_platform_admin db ctx.user_id = true) :
    check db ctx = Except.ok true := by
  simp [check, h]

theorem gup_of_platform_admin (db : DB) (ctx : PermissionContext)
    (h : is_platform_admin db ctx.user_id = true) :
    get_user_permission db ctx = Permission.OWNER := by
  simp [get_user_permission, h]

theorem gup_of_tenant_admin (db : DB) (ctx : PermissionContext)
    (h : is_tenant_admin (get_tenant_user db ctx.user_id ctx.tenant_id) = true) :
    get_user_permission db ctx = Permission.OWNER := by
  by_cases hpa : is_platform_admin db ctx.user_id = true
  · simp [get_user_permission, hpa]
  · simp [get_user_permission, hpa, h]

/-- C3: for every principal registered as a platform super-admin, check
succeeds for any tenant, resource and requirement (even with no
membership anywhere), and get_user_permission returns the full owner
bitmask 255, before any tenant- or resource-level step. -/
theorem C3_platform_admin_bypass (db : DB) (ctx : PermissionContext)
    (h : is_platform_admin db ctx.user_id = true) :
    check db ctx = Except.ok true ∧
    get_user_permission db ctx = Permission.OWNER ∧
    Permission.OWNER = 255 :=
  ⟨check_ok_of_platform_admin db ctx h, gup_of_platform_admin db ctx h, by decide⟩

def c3_db : DB :=
  ⟨[⟨7, PlatformRole.super_admin, none⟩], [], [], fun _ => none, fun _ => none, 0⟩

def c3_ctx : PermissionContext :=
  ⟨7, "t", ResourceType.document, "d", 255⟩

theorem C3_platform_admin_bypass_witness :
    check c3_db c3_ctx = Except.ok true ∧
    get_user_permission c3_db c3_ctx = Permission.OWNER ∧
    Permission.OWNER = 255 :=
  C3_platform_admin_bypass c3_db c3_ctx (by decide)

/-- C10: the platform-admin bypass applies to every row of the
platform_admins table regardless of its platform role, because
_is_platform_admin tests only the existence of a row for the user id:
any row (ops, support, auditor included) yields full access from check
and the owner bitmask 255 from get_user_permission. -/
theorem C10_platform_role_ignored (db : DB) (ctx : PermissionContext)
    (a : PlatformAdmin) (ha : a ∈ db.platform_admins)
    (huid : a.user_id = ctx.user_id) :
    is_platform_admin db ctx.user_id = true ∧
    check db ctx = Except.ok true ∧
    get_user_permission db ctx = 255 := by
  have h : is_platform_admin db ctx.user_id = true := by
    simp only [is_platform_admin, List.any_eq_true]
    exact ⟨a, ha, by simp [huid]⟩
  exact ⟨h, check_ok_of_platform_admin db ctx h,
    (gup_of_platform_admin db ctx h).trans (by decide)⟩

def c10_db : DB :=
  ⟨[⟨9, PlatformRole.auditor, none⟩], [], [], fun _ => none, fun _ => none, 0⟩

def c10_ctx : PermissionContext :=
  ⟨9, "t", ResourceType.workspace, "w", 255⟩

theorem C10_platform_role_ignored_witness :
    is_platform_admin c10_db 9 = true ∧
    check c10_db c10_ctx = Except.ok true ∧
    get_user_permission c10_db c10_ctx = 255 := by
  have h := C10_platform_role_ignored c10_db c10_ctx
    ⟨9, PlatformRole.auditor, none⟩ (by simp [c10_db]) rfl
  exact h

/-- C4: for every principal with an active membership whose role name is
exactly "tenant_admin", check succeeds for any resource and required
capability in that tenant and get_user_permission returns the full
owner bitmask, independently of the resource_permissions table. -/
theorem C4_tenant_admin_short_circuit (db : DB) (ctx : PermissionContext)
    (tu : TenantUser) (r : TenantRole)
    (htu : get_tenant_user db ctx.user_id ctx.tenant_id = some tu)
    (hrole : tu.role = some r) (hname : r.name = "tenant_admin") :
    check db ctx = Except.ok true ∧
    get_user_permission db ctx = Permission.OWNER ∧
    (∀ perms, get_user_permission { db with resource_permissions := perms } ctx =
      Permission.OWNER) := by
  have hta : is_tenant_admin (get_tenant_user db ctx.user_id ctx.tenant_id) = true := by
    simp [is_tenant_admin, htu, hrole, hname]
  have hb : belongs_to_tenant db ctx.user_id ctx.tenant_id = true := by
    simp [belongs_to_tenant, htu]
  refine ⟨?_, gup_of_tenant_admin db ctx hta, ?_⟩
  · by_cases hpa : is_platform_admin db ctx.user_id = true
    · simp [check, hpa]
    · simp [check, hpa, hb, hta]
  · intro perms
    refine gup_of_tenant_admin _ ctx ?_
    rw [get_tenant_user_set_perms]
    exact hta

def c4_db : DB :=
  ⟨[], [⟨1, "t", some ⟨"r1", "tenant_admin", 9, 33⟩, none, "active"⟩],
   [], fun _ => none, fun _ => none, 0⟩

def c4_ctx : PermissionContext :=
  ⟨1, "t", ResourceType.document, "d", 255⟩

theorem C4_tenant_admin_short_circuit_witness :
    check c4_db c4_ctx = Except.ok true ∧
    get_user_permission c4_db c4_ctx = Permission.OWNER ∧
    (∀ perms, get_user_permission { c4_db with resource_permissions := perms } c4_ctx =
      Permission.OWNER) :=
  C4_tenant_admin_short_circuit c4_db c4_ctx
    ⟨1, "t", some ⟨"r1", "tenant_admin", 9, 33⟩, none, "active"⟩
    ⟨"r1", "tenant_admin", 9, 33⟩ rfl rfl rfl

/-! Claim C2. The membership gate holds for `check`, but
`get_user_permission` has no membership check at all: for a non-member
it still runs the resource walk (with an absent membership record), so
a direct user grant is consulted and returned. The counterexample shows
the resource lookup is reached in `get_user_permission`. -/

def c2_db : DB :=
  ⟨[], [],
   [⟨"t", ResourceType.document, "d", GranteeType.user, "1", 67, true, none, none⟩],
   fun _ => none, fun _ => none, 0⟩

def c2_db_nogrants : DB := ⟨[], [], [], fun _ => none, fun _ => none, 0⟩

def c2_ctx : PermissionContext := ⟨1, "t", ResourceType.document, "d", 1⟩

/-- C2 counterexample: user 1 has no membership in tenant "t" and is not
a platform admin, yet get_user_permission returns 67 from the direct
user grant on document "d" (and 0 once that grant is removed): the
resource-permission lookup is reached in effectivePermission for a
principal with no membership, contradicting the claim. -/
theorem C2_membership_gate_counterexample :
    is_platform_admin c2_db 1 = false ∧
    belongs_to_tenant c2_db 1 "t" = false ∧
    get_user_permission c2_db c2_ctx = 67 ∧
    get_user_permission c2_db_nogrants c2_ctx = 0 := by
  refine ⟨rfl, rfl, ?_, ?_⟩ <;> decide

/-- C2 (amended): for a principal with no active membership and no
platform-admin row, check fails with membership_missing before any
resource logic, regardless of the grants on the target resource; but
get_user_permission performs no membership gate: it proceeds to the
resource walk with an absent membership record. -/
theorem C2_membership_gate (db : DB) (ctx : PermissionContext)
    (hadmin : is_platform_admin db ctx.user_id = false)
    (hmem : belongs_to_tenant db ctx.user_id ctx.tenant_id = false) :
    check db ctx = Except.error CheckError.membership_missing ∧
    (∀ perms, check { db with resource_permissions := perms } ctx =
      Except.error CheckError.membership_missing) ∧
    get_user_permission db ctx = get_resource_permission db ctx none := by
  have hnone : get_tenant_user db ctx.user_id ctx.tenant_id = none := by
    cases h : get_tenant_user db ctx.user_id ctx.tenant_id with
    | none => rfl
    | some tu => rw [belongs_to_tenant, h] at hmem; simp at hmem
  refine ⟨?_, ?_, ?_⟩
  · simp [check, hadmin, hmem]
  · intro perms
    simp [check, is_platform_admin_set_perms, belongs_set_perms, hadmin, hmem]
  · simp [get_user_permission, hadmin, hnone, is_tenant_admin]

theorem C2_membership_gate_witness :
    check c2_db c2_ctx = Except.error CheckError.membership_missing ∧
    (∀ perms, check { c2_db with resource_permissions := perms } c2_ctx =
      Except.error CheckError.membership_missing) ∧
    get_user_permission c2_db c2_ctx = get_resource_permission c2_db c2_ctx none :=
  C2_membership_gate c2_db c2_ctx rfl rfl

/-! The ancestor chain of a resource, used to state the hierarchy-walk
claims: level 0 is the resource itself, level j+1 its j+1-st ancestor
via `get_parent_resource`. -/

def parent_chain (db : DB) : Nat → ResourceType × String → Option (ResourceType × String)
  | 0, p => some p
  | n + 1, (rt, rid) =>
    match get_parent_resource db rt rid with
    | none => none
    | some q => parent_chain db n q

/-! Facts about `list_max` (the Python `max` on a non-empty list). -/

theorem foldl_max_le (xs : List Nat) : ∀ (x b : Nat), b ≤ x → b ≤ xs.foldl max x := by
  induction xs with
  | nil => intro x b h; exact h
  | cons y ys ih =>
    intro x b h
    exact ih (max x y) b (le_trans h (le_max_left x y))

theorem le_foldl_max_of_mem (xs : List Nat) :
    ∀ (x b : Nat), b ∈ xs → b ≤ xs.foldl max x := by
  induction xs with
  | nil => intro x b h; cases h
  | cons y ys ih =>
    intro x b h
    cases List.mem_cons.mp h with
    | inl hb => subst hb; exact foldl_max_le ys (max x b) b (le_max_right x b)
    | inr hb => exact ih (max x y) b hb

theorem le_list_max (l : List Nat) (b : Nat) (h : b ∈ l) : b ≤ list_max l := by
  cases l with
  | nil => cases h
  | cons x xs =>
    show b ≤ xs.foldl max x
    cases List.mem_cons.mp h with
    | inl hb => subst hb; exact foldl_max_le xs b b le_rfl
    | inr hb => exact le_foldl_max_of_mem xs x b hb

theorem foldl_max_mem (xs : List Nat) :
    ∀ (x : Nat), xs.foldl max x = x ∨ xs.foldl max x ∈ xs := by
  induction xs with
  | nil => intro x; exact Or.inl rfl
  | cons y ys ih =>
    intro x
    show ys.foldl max (max x y) = x ∨ ys.foldl max (max x y) ∈ y :: ys
    cases ih (max x y) with
    | inl h =>
      cases max_choice x y with
      | inl hx => exact Or.inl (h.trans hx)
      | inr hy =>
        refine Or.inr ?_
        rw [h, hy]
        exact List.mem_cons_self y ys
    | inr h => exact Or.inr (List.mem_cons_of_mem y h)

theorem list_max_mem (l : List Nat) (h : l ≠ []) : list_max l ∈ l := by
  cases l with
  | nil => exact absurd rfl h
  | cons x xs =>
    show xs.foldl max x ∈ x :: xs
    cases foldl_max_mem xs x with
    | inl hx => rw [hx]; exact List.mem_cons_self x xs
    | inr hx => exact List.mem_cons_of_mem x hx

/-! The hierarchy walk returns `none` when every level it can reach
inside its fuel has an empty applicable-grant set. -/

theorem walk_none_of_empty (db : DB) (tid : String) (uid : Nat)
    (tu : Option TenantUser) :
    ∀ (fuel : Nat) (rt : ResourceType) (rid : String),
      (∀ j rtj ridj, j < fuel → parent_chain db j (rt, rid) = some (rtj, ridj) →
        query_resource_permissions db tid rtj ridj uid tu = []) →
      resource_permission_walk db tid uid tu fuel rt rid = none := by
  intro fuel
  induction fuel with
  | zero => intro rt rid _; rfl
  | succ f ih =>
    intro rt rid h
    by_cases hrid : (rid == "") = true
    · simp [resource_permission_walk, hrid]
    · have h0 : query_resource_permissions db tid rt rid uid tu = [] :=
        h 0 rt rid (Nat.succ_pos f) rfl
      simp only [resource_permission_walk, hrid, if_false, Bool.false_eq_true, h0,
        List.isEmpty_nil, if_true]
      cases hp : get_parent_resource db rt rid with
      | none => rfl
      | some q =>
        obtain ⟨rt2, rid2⟩ := q
        simp only []
        apply ih
        intro j rtj ridj hj hc
        apply h (j + 1) rtj ridj (Nat.succ_lt_succ hj)
        simp [parent_chain, hp]
        exact hc

/-- C9: the hierarchy walk of _get_resource_permission is bounded by the
fixed depth 10: whenever the applicable-grant set is empty at every
level reachable within that bound — including on a cyclic parent chain
that never ends — resolution terminates and falls through to the role
default; and a workspace, a document without a folder, or a folder
without a parent is silently treated as having no parent. -/
theorem C9_bounded_walk (db : DB) (ctx : PermissionContext)
    (hadmin : is_platform_admin db ctx.user_id = false)
    (htadmin : is_tenant_admin (get_tenant_user db ctx.user_id ctx.tenant_id) = false)
    (hempty : ∀ j rtj ridj, j < MAX_DEPTH →
      parent_chain db j (ctx.resource_type, ctx.resource_id) = some (rtj, ridj) →
      query_resource_permissions db ctx.tenant_id rtj ridj ctx.user_id
        (get_tenant_user db ctx.user_id ctx.tenant_id) = []) :
    get_user_permission db ctx =
      role_default (get_tenant_user db ctx.user_id ctx.tenant_id) ∧
    (∀ rid, get_parent_resource db ResourceType.workspace rid = none) ∧
    (∀ rid, db.doc_folder rid = none →
      get_parent_resource db ResourceType.document rid = none) ∧
    (∀ rid, db.folder_parent rid = none →
      get_parent_resource db ResourceType.folder rid = none) := by
  have hw : resource_permission_walk db ctx.tenant_id ctx.user_id
      (get_tenant_user db ctx.user_id ctx.tenant_id) MAX_DEPTH
      ctx.resource_type ctx.resource_id = none :=
    walk_none_of_empty db ctx.tenant_id ctx.user_id _ MAX_DEPTH
      ctx.resource_type ctx.resource_id hempty
  refine ⟨?_, ?_, ?_, ?_⟩
  · simp [get_user_permission, hadmin, htadmin, get_resource_permission, hw]
  · intro rid; rfl
  · intro rid h; simp [get_parent_resource, h]
  · intro rid h; simp [get_parent_resource, h]

def c9_db : DB :=
  ⟨[], [⟨1, "t", some ⟨"r1", "member", 0, 33⟩, none, "active"⟩], [],
   fun _ => none, fun s => if s == "a" then some "a" else none, 0⟩

def c9_ctx : PermissionContext := ⟨1, "t", ResourceType.folder, "a", 1⟩

theorem C9_bounded_walk_witness :
    get_user_permission c9_db c9_ctx = 33 := by
  have h := C9_bounded_walk c9_db c9_ctx (by decide) (by decide)
    (fun _ _ _ _ _ => rfl)
  exact h.1.trans (by decide)

/-! Pruning expired grants from the table does not change resolution. -/

theorem filter_prune {α : Type} (e m : α → Bool) (l : List α) :
    ((l.filter e).filter m).filter e = (l.filter m).filter e := by
  induction l with
  | nil => rfl
  | cons a t ih =>
    cases he : e a <;> cases hm : m a <;>
      simp [List.filter_cons, he, hm, ih, -List.filter_filter]

/-- The pruned database: all expired rows removed from
`resource_permissions`, everything else unchanged. -/
def prune_expired (db : DB) : DB :=
  { db with resource_permissions :=
      db.resource_permissions.filter (fun p => !(p.is_expired db.now)) }

theorem query_prune (db : DB) (tid : String) (rt : ResourceType) (rid : String)
    (uid : Nat) (tu : Option TenantUser) :
    query_resource_permissions (prune_expired db) tid rt rid uid tu =
      query_resource_permissions db tid rt rid uid tu := by
  show ((((db.resource_permissions.filter (fun p => !(p.is_expired db.now))).filter
      (fun p => p.tenant_id == tid && p.resource_type == rt && p.resource_id == rid &&
        grantee_matches uid tu p)).filter
      (fun p => !(p.is_expired db.now))).map (fun p => p.permission)) =
    query_resource_permissions db tid rt rid uid tu
  rw [filter_prune]
  rfl

theorem get_parent_prune (db : DB) (rt : ResourceType) (rid : String) :
    get_parent_resource (prune_expired db) rt rid = get_parent_resource db rt rid := rfl

theorem walk_prune (db : DB) (tid : String) (uid : Nat) (tu : Option TenantUser) :
    ∀ (fuel : Nat) (rt : ResourceType) (rid : String),
      resource_permission_walk (prune_expired db) tid uid tu fuel rt rid =
        resource_permission_walk db tid uid tu fuel rt rid := by
  intro fuel
  induction fuel with
  | zero => intro rt rid; rfl
  | succ f ih =>
    intro rt rid
    simp only [resource_permission_walk, query_prune, get_parent_prune]
    cases get_parent_resource db rt rid with
    | none => rfl
    | some q =>
      obtain ⟨rt2, rid2⟩ := q
      simp only [ih]

theorem gup_prune (db : DB) (ctx : PermissionContext) :
    get_user_permission (prune_expired db) ctx = get_user_permission db ctx := by
  have h1 : is_platform_admin (prune_expired db) ctx.user_id =
      is_platform_admin db ctx.user_id := rfl
  have h2 : get_tenant_user (prune_expired db) ctx.user_id ctx.tenant_id =
      get_tenant_user db ctx.user_id ctx.tenant_id := rfl
  simp only [get_user_permission, h1, h2, get_resource_permission, walk_prune]

/-- C5: is_expired is true iff an expiry timestamp is set and is earlier
than the evaluation time; expired grants are excluded from resolution at
every level (removing them from the table never changes the resolved
bitmask); and when every reachable level has no applicable non-expired
grant, get_user_permission falls through to the role default bitmask
(zero when the principal has no role). -/
theorem C5_lazy_expiry_role_default (db : DB) (ctx : PermissionContext)
    (hadmin : is_platform_admin db ctx.user_id = false)
    (htadmin : is_tenant_admin (get_tenant_user db ctx.user_id ctx.tenant_id) = false)
    (hempty : ∀ j rtj ridj,
      parent_chain db j (ctx.resource_type, ctx.resource_id) = some (rtj, ridj) →
      query_resource_permissions db ctx.tenant_id rtj ridj ctx.user_id
        (get_tenant_user db ctx.user_id ctx.tenant_id) = []) :
    (∀ (p : ResourcePermission) (now : Nat),
      p.is_expired now = true ↔ ∃ t, p.expires_at = some t ∧ t < now) ∧
    (∀ (db' : DB) (ctx' : PermissionContext),
      get_user_permission (prune_expired db') ctx' = get_user_permission db' ctx') ∧
    get_user_permission db ctx =
      role_default (get_tenant_user db ctx.user_id ctx.tenant_id) := by
  refine ⟨?_, fun db' ctx' => gup_prune db' ctx', ?_⟩
  · intro p now
    cases h : p.expires_at with
    | none => simp [ResourcePermission.is_expired, h]
    | some t => simp [ResourcePermission.is_expired, h]
  · have hw : resource_permission_walk db ctx.tenant_id ctx.user_id
        (get_tenant_user db ctx.user_id ctx.tenant_id) MAX_DEPTH
        ctx.resource_type ctx.resource_id = none :=
      walk_none_of_empty db ctx.tenant_id ctx.user_id _ MAX_DEPTH
        ctx.resource_type ctx.resource_id
        (fun j rtj ridj _ hc => hempty j rtj ridj hc)
    simp [get_user_permission, hadmin, htadmin, get_resource_permission, hw]

def c5_db : DB :=
  ⟨[], [⟨1, "t", some ⟨"r1", "member", 0, 33⟩, none, "active"⟩],
   [⟨"t", ResourceType.document, "d", GranteeType.user, "1", 255, true, none, some 5⟩],
   fun _ => none, fun _ => none, 10⟩

def c5_ctx : PermissionContext := ⟨1, "t", ResourceType.document, "d", 1⟩

theorem C5_lazy_expiry_role_default_witness :
    get_user_permission c5_db c5_ctx = 33 := by
  have hempty : ∀ j rtj ridj,
      parent_chain c5_db j (c5_ctx.resource_type, c5_ctx.resource_id) = some (rtj, ridj) →
      query_resource_permissions c5_db c5_ctx.tenant_id rtj ridj c5_ctx.user_id
        (get_tenant_user c5_db c5_ctx.user_id c5_ctx.tenant_id) = [] := by
    intro j rtj ridj h
    match j with
    | 0 =>
      simp only [parent_chain, Option.some.injEq, Prod.mk.injEq] at h
      obtain ⟨h1, h2⟩ := h
      subst h1; subst h2
      decide
    | j + 1 =>
      simp [parent_chain, get_parent_resource, c5_db, c5_ctx] at h
  have h := C5_lazy_expiry_role_default c5_db c5_ctx (by decide) (by decide) hempty
  exact h.2.2.trans (by decide)

/-! Stop-at-first-hit: the walk returns the maximum grant of the first
level whose applicable set is non-empty. -/

theorem walk_stops_at_first_hit (db : DB) (tid : String) (uid : Nat)
    (tu : Option TenantUser) :
    ∀ (k : Nat) (fuel : Nat) (rt rtk : ResourceType) (rid ridk : String),
      k < fuel →
      (∀ j rtj ridj, j < k → parent_chain db j (rt, rid) = some (rtj, ridj) →
        ridj ≠ "" ∧ query_resource_permissions db tid rtj ridj uid tu = []) →
      parent_chain db k (rt, rid) = some (rtk, ridk) →
      ridk ≠ "" →
      query_resource_permissions db tid rtk ridk uid tu ≠ [] →
      resource_permission_walk db tid uid tu fuel rt rid =
        some (list_max (query_resource_permissions db tid rtk ridk uid tu)) := by
  intro k
  induction k with
  | zero =>
    intro fuel rt rtk rid ridk hf _ hchain hne hq
    obtain ⟨f, rfl⟩ : ∃ f, fuel = f + 1 := ⟨fuel - 1, by omega⟩
    simp only [parent_chain, Option.some.injEq, Prod.mk.injEq] at hchain
    obtain ⟨h1, h2⟩ := hchain
    subst h1; subst h2
    have hrid : (rid == "") = false := by
      simp only [beq_eq_false_iff_ne, ne_eq]
      exact hne
    have hq2 : (query_resource_permissions db tid rt rid uid tu).isEmpty = false := by
      cases hql : query_resource_permissions db tid rt rid uid tu with
      | nil => exact absurd hql hq
      | cons a l => rfl
    simp [resource_permission_walk, hrid, hq2]
  | succ k ih =>
    intro fuel rt rtk rid ridk hf hj hchain hne hq
    obtain ⟨f, rfl⟩ : ∃ f, fuel = f + 1 := ⟨fuel - 1, by omega⟩
    have h0 := hj 0 rt rid (Nat.succ_pos k) rfl
    have hrid : (rid == "") = false := by
      simp only [beq_eq_false_iff_ne, ne_eq]
      exact h0.1
    have hq0 : (query_resource_permissions db tid rt rid uid tu).isEmpty = true := by
      rw [h0.2]; rfl
    cases hp : get_parent_resource db rt rid with
    | none => simp [parent_chain, hp] at hchain
    | some q =>
      obtain ⟨rt2, rid2⟩ := q
      have hchain2 : parent_chain db k (rt2, rid2) = some (rtk, ridk) := by
        simpa [parent_chain, hp] using hchain
      have hj2 : ∀ j rtj ridj, j < k →
          parent_chain db j (rt2, rid2) = some (rtj, ridj) →
          ridj ≠ "" ∧ query_resource_permissions db tid rtj ridj uid tu = [] := by
        intro j rtj ridj hjk hc
        refine hj (j + 1) rtj ridj (Nat.succ_lt_succ hjk) ?_
        simpa [parent_chain, hp] using hc
      have hrec := ih f rt2 rtk rid2 ridk (by omega) hj2 hchain2 hne hq
      simp only [resource_permission_walk, hrid, Bool.false_eq_true, if_false, hq0,
        if_true, hp]
      exact hrec

/-- C1: for a principal who is neither a platform admin nor a
tenant_admin, get_user_permission stops at the first (closest) hierarchy
level whose applicable non-expired grant set is non-empty, and the
effective bitmask is the single numerically largest bitmask of that
set: it is a member of the gathered set and an upper bound of it, and
no ancestor grant is consulted or merged. -/
theorem C1_stop_at_first_hit (db : DB) (ctx : PermissionContext)
    (k : Nat) (rtk : ResourceType) (ridk : String)
    (hadmin : is_platform_admin db ctx.user_id = false)
    (htadmin : is_tenant_admin (get_tenant_user db ctx.user_id ctx.tenant_id) = false)
    (hk : k < MAX_DEPTH)
    (hfirst : ∀ j rtj ridj, j < k →
      parent_chain db j (ctx.resource_type, ctx.resource_id) = some (rtj, ridj) →
      ridj ≠ "" ∧ query_resource_permissions db ctx.tenant_id rtj ridj ctx.user_id
        (get_tenant_user db ctx.user_id ctx.tenant_id) = [])
    (hchain : parent_chain db k (ctx.resource_type, ctx.resource_id) = some (rtk, ridk))
    (hne : ridk ≠ "")
    (hq : query_resource_permissions db ctx.tenant_id rtk ridk ctx.user_id
      (get_tenant_user db ctx.user_id ctx.tenant_id) ≠ []) :
    get_user_permission db ctx =
      list_max (query_resource_permissions db ctx.tenant_id rtk ridk ctx.user_id
        (get_tenant_user db ctx.user_id ctx.tenant_id)) ∧
    get_user_permission db ctx ∈
      query_resource_permissions db ctx.tenant_id rtk ridk ctx.user_id
        (get_tenant_user db ctx.user_id ctx.tenant_id) ∧
    (∀ b ∈ query_resource_permissions db ctx.tenant_id rtk ridk ctx.user_id
        (get_tenant_user db ctx.user_id ctx.tenant_id),
      b ≤ get_user_permission db ctx) := by
  have hw := walk_stops_at_first_hit db ctx.tenant_id ctx.user_id
    (get_tenant_user db ctx.user_id ctx.tenant_id) k MAX_DEPTH
    ctx.resource_type rtk ctx.resource_id ridk hk hfirst hchain hne hq
  have hmain : get_user_permission db ctx =
      list_max (query_resource_permissions db ctx.tenant_id rtk ridk ctx.user_id
        (get_tenant_user db ctx.user_id ctx.tenant_id)) := by
    simp [get_user_permission, hadmin, htadmin, get_resource_permission, hw]
  refine ⟨hmain, ?_, ?_⟩
  · rw [hmain]
    exact list_max_mem _ hq
  · intro b hb
    rw [hmain]
    exact le_list_max _ b hb

def c1_db : DB :=
  ⟨[], [⟨1, "t", none, none, "active"⟩],
   [⟨"t", ResourceType.document, "d", GranteeType.user, "1", 1, true, none, none⟩,
    ⟨"t", ResourceType.folder, "f", GranteeType.user, "1", 255, true, none, none⟩],
   fun s => if s == "d" then some "f" else none, fun _ => none, 0⟩

def c1_ctx : PermissionContext := ⟨1, "t", ResourceType.document, "d", 255⟩

def c1_db2 : DB :=
  ⟨[], [⟨1, "t", some ⟨"r1", "member", 0, 1⟩, none, "active"⟩],
   [⟨"t", ResourceType.document, "d", GranteeType.user, "1", 33, true, none, none⟩,
    ⟨"t", ResourceType.document, "d", GranteeType.role, "r1", 67, true, none, none⟩],
   fun _ => none, fun _ => none, 0⟩

def c1_ctx2 : PermissionContext := ⟨1, "t", ResourceType.document, "d", 255⟩

theorem C1_stop_at_first_hit_witness :
    get_user_permission c1_db c1_ctx = 1 ∧
    get_user_permission c1_db2 c1_ctx2 = 67 := by
  have h1 := C1_stop_at_first_hit c1_db c1_ctx 0 ResourceType.document "d"
    (by decide) (by decide) (by decide)
    (fun j _ _ hj _ => absurd hj (Nat.not_lt_zero j)) rfl (by decide) (by decide)
  have h2 := C1_stop_at_first_hit c1_db2 c1_ctx2 0 ResourceType.document "d"
    (by decide) (by decide) (by decide)
    (fun j _ _ hj _ => absurd hj (Nat.not_lt_zero j)) rfl (by decide) (by decide)
  exact ⟨h1.1.trans (by decide), h2.1.trans (by decide)⟩

/-! The uniqueness invariant of the resource_permissions table (the
unique index on tenant, resource type, resource id, grantee type,
grantee id) and the upsert behaviour of the grant manager. -/

/-- The value of the unique-index key of a grant row. -/
def grant_key (p : ResourcePermission) :
    String × ResourceType × String × GranteeType × String :=
  (p.tenant_id, p.resource_type, p.resource_id, p.grantee_type, p.grantee_id)

/-- At most one row per key: the mapped key list has no duplicates. -/
def key_unique (perms : List ResourcePermission) : Prop :=
  (perms.map grant_key).Nodup

theorem same_grant_key_iff (t : String) (rt : ResourceType) (rid : String)
    (gt : GranteeType) (gid : String) (p : ResourcePermission) :
    same_grant_key t rt rid gt gid p = true ↔ grant_key p = (t, rt, rid, gt, gid) := by
  simp [same_grant_key, grant_key, Prod.ext_iff, and_assoc]

theorem update_first_length {α : Type} (f : α → Bool) (g : α → α) :
    ∀ (l : List α), (update_first f g l).length = l.length := by
  intro l
  induction l with
  | nil => rfl
  | cons x xs ih =>
    by_cases hx : f x = true
    · simp [update_first, hx]
    · simp [update_first, hx, ih]

theorem update_first_key_map (f : ResourcePermission → Bool)
    (g : ResourcePermission → ResourcePermission)
    (hg : ∀ x, grant_key (g x) = grant_key x) :
    ∀ (l : List ResourcePermission),
      (update_first f g l).map grant_key = l.map grant_key := by
  intro l
  induction l with
  | nil => rfl
  | cons x xs ih =>
    by_cases hx : f x = true
    · simp [update_first, hx, hg x]
    · simp [update_first, hx, ih]

theorem grant_permission_preserves_key_unique (perms : List ResourcePermission)
    (t : String) (rt : ResourceType) (rid : String) (gt : GranteeType)
    (gid : String) (v g : Nat) (e : Option Nat) (hu : key_unique perms) :
    key_unique (grant_permission perms t rt rid gt gid v g e) := by
  by_cases h : perms.any (same_grant_key t rt rid gt gid) = true
  · unfold key_unique grant_permission
    rw [if_pos h, update_first_key_map]
    · exact hu
    · intro x; rfl
  · unfold key_unique grant_permission
    rw [if_neg h]
    rw [List.map_append]
    rw [List.nodup_append]
    refine ⟨hu, List.nodup_singleton _, ?_⟩
    intro a ha hb
    simp only [List.map_cons, List.map_nil, List.mem_singleton] at hb
    simp only [List.any_eq_true, not_exists, not_and] at h
    obtain ⟨p, hp, hpk⟩ := List.mem_map.mp ha
    have := h p hp
    rw [same_grant_key_iff] at this
    apply this
    rw [hpk, hb]
    rfl

theorem update_first_filter (t : String) (rt : ResourceType) (rid : String)
    (gt : GranteeType) (gid : String)
    (g : ResourcePermission → ResourcePermission)
    (hg : ∀ x, grant_key (g x) = grant_key x) :
    ∀ (l : List ResourcePermission), key_unique l →
      l.any (same_grant_key t rt rid gt gid) = true →
      ∃ r, r ∈ l ∧ same_grant_key t rt rid gt gid r = true ∧
        (update_first (same_grant_key t rt rid gt gid) g l).filter
          (same_grant_key t rt rid gt gid) = [g r] := by
  intro l
  induction l with
  | nil => intro _ h; simp at h
  | cons x xs ih =>
    intro hu hany
    have hu2 : key_unique xs := by
      unfold key_unique at hu ⊢
      simp only [List.map_cons, List.nodup_cons] at hu
      exact hu.2
    by_cases hx : same_grant_key t rt rid gt gid x = true
    · have hgx : same_grant_key t rt rid gt gid (g x) = true := by
        rw [same_grant_key_iff, hg x, ← same_grant_key_iff]
        exact hx
      have hxs : xs.filter (same_grant_key t rt rid gt gid) = [] := by
        rw [List.filter_eq_nil_iff]
        intro a ha hak
        unfold key_unique at hu
        simp only [List.map_cons, List.nodup_cons] at hu
        apply hu.1
        rw [List.mem_map]
        refine ⟨a, ha, ?_⟩
        rw [same_grant_key_iff] at hak hx
        rw [hak, hx]
      refine ⟨x, List.mem_cons_self x xs, hx, ?_⟩
      simp [update_first, hx, List.filter_cons, hgx, hxs]
    · have hany2 : xs.any (same_grant_key t rt rid gt gid) = true := by
        simp only [List.any_cons, hx, Bool.false_or] at hany
        exact hany
      obtain ⟨r, hr, hrk, hfil⟩ := ih hu2 hany2
      refine ⟨r, List.mem_cons_of_mem x hr, hrk, ?_⟩
      simp [update_first, hx, List.filter_cons, hfil]

theorem grant_permission_filter (perms : List ResourcePermission)
    (t : String) (rt : ResourceType) (rid : String) (gt : GranteeType)
    (gid : String) (v g : Nat) (e : Option Nat) (hu : key_unique perms) :
    ∃ r, (grant_permission perms t rt rid gt gid v g e).filter
        (same_grant_key t rt rid gt gid) = [r] ∧
      r.permission = v ∧ r.granted_by = some g ∧ r.expires_at = e ∧
      grant_key r = (t, rt, rid, gt, gid) := by
  by_cases h : perms.any (same_grant_key t rt rid gt gid) = true
  · obtain ⟨r0, _, hr0k, hfil⟩ := update_first_filter t rt rid gt gid
      (fun p => { p with permission := v, granted_by := some g, expires_at := e })
      (fun x => rfl) perms hu h
    refine ⟨{ r0 with
              permission := v,
              granted_by := some g,
              expires_at := e }, ?_, rfl, rfl, rfl, ?_⟩
    · unfold grant_permission
      rw [if_pos h]
      exact hfil
    · show grant_key r0 = (t, rt, rid, gt, gid)
      rw [← same_grant_key_iff]
      exact hr0k
  · refine ⟨{ tenant_id := t,
              resource_type := rt,
              resource_id := rid,
              grantee_type := gt,
              grantee_id := gid,
              permission := v,
              inherit := true,
              granted_by := some g,
              expires_at := e }, ?_, rfl, rfl, rfl, rfl⟩
    unfold grant_permission
    rw [if_neg h]
    rw [List.filter_append]
    have h1 : perms.filter (same_grant_key t rt rid gt gid) = [] := by
      rw [List.filter_eq_nil_iff]
      intro a ha
      simp only [List.any_eq_true, not_exists, not_and] at h
      intro hak
      exact absurd hak (by simpa using h a ha)
    rw [h1]
    simp [List.filter_cons, same_grant_key]

theorem length_filter_not {α : Type} (p : α → Bool) (l : List α) :
    (l.filter (fun a => !(p a))).length + (l.filter p).length = l.length := by
  induction l with
  | nil => rfl
  | cons x xs ih =>
    by_cases hx : p x = true
    · simp [List.filter_cons, hx, ← ih]
      omega
    · simp [List.filter_cons, hx, ← ih]
      omega

theorem filter_key_length_le_one (t : String) (rt : ResourceType) (rid : String)
    (gt : GranteeType) (gid : String) :
    ∀ (l : List ResourcePermission), key_unique l →
      (l.filter (same_grant_key t rt rid gt gid)).length ≤ 1 := by
  intro l
  induction l with
  | nil => intro _; simp
  | cons x xs ih =>
    intro hu
    unfold key_unique at hu
    simp only [List.map_cons, List.nodup_cons] at hu
    by_cases hx : same_grant_key t rt rid gt gid x = true
    · have hxs : xs.filter (same_grant_key t rt rid gt gid) = [] := by
        rw [List.filter_eq_nil_iff]
        intro a ha hak
        apply hu.1
        rw [List.mem_map]
        refine ⟨a, ha, ?_⟩
        rw [same_grant_key_iff] at hak hx
        rw [hak, hx]
      simp [List.filter_cons, hx, hxs]
    · simpa [List.filter_cons, hx] using ih hu.2

theorem any_key_iff (t : String) (rt : ResourceType) (rid : String)
    (gt : GranteeType) (gid : String) (l : List ResourcePermission) :
    l.any (same_grant_key t rt rid gt gid) = true ↔
      ∃ p ∈ l, grant_key p = (t, rt, rid, gt, gid) := by
  rw [List.any_eq_true]
  constructor
  · rintro ⟨p, hp, hk⟩
    exact ⟨p, hp, (same_grant_key_iff t rt rid gt gid p).mp hk⟩
  · rintro ⟨p, hp, hk⟩
    exact ⟨p, hp, (same_grant_key_iff t rt rid gt gid p).mpr hk⟩

theorem list_then_grantee_filter (t : String) (rt : ResourceType) (rid : String)
    (gt : GranteeType) (gid : String) (l : List ResourcePermission) :
    (list_resource_permissions l t rt rid).filter
        (fun p => p.grantee_type == gt && p.grantee_id == gid) =
      l.filter (same_grant_key t rt rid gt gid) := by
  unfold list_resource_permissions
  rw [List.filter_filter]
  apply List.filter_congr
  intro p _
  simp only [same_grant_key]
  cases h1 : (p.tenant_id == t) <;> cases h2 : (p.resource_type == rt) <;>
    cases h3 : (p.resource_id == rid) <;> cases h4 : (p.grantee_type == gt) <;>
      cases h5 : (p.grantee_id == gid) <;> simp [h1, h2, h3, h4, h5]

theorem grant_permission_length_of_any (t : String) (rt : ResourceType)
    (rid : String) (gt : GranteeType) (gid : String) (v g : Nat) (e : Option Nat)
    (l : List ResourcePermission)
    (h : l.any (same_grant_key t rt rid gt gid) = true) :
    (grant_permission l t rt rid gt gid v g e).length = l.length := by
  unfold grant_permission
  rw [if_pos h]
  exact update_first_length _ _ l

/-- C6: on a key-unique table, granting twice with the same (tenant,
resource type, resource id, grantee type, grantee id) key overwrites
the existing row bitmask, provenance and expiry in place instead of
creating a duplicate: key-uniqueness is preserved, the second grant
does not grow the table, list_resource_permissions afterwards holds
exactly one entry for that key carrying the second payload, and
revoke_permission deletes at most one row and returns true iff a row
was deleted. -/
theorem C6_upsert_uniqueness (perms p1 p2 : List ResourcePermission)
    (t : String) (rt : ResourceType) (rid : String) (gt : GranteeType)
    (gid : String) (v1 v2 g1 g2 : Nat) (e1 e2 : Option Nat)
    (hu : key_unique perms)
    (h1 : p1 = grant_permission perms t rt rid gt gid v1 g1 e1)
    (h2 : p2 = grant_permission p1 t rt rid gt gid v2 g2 e2) :
    key_unique p1 ∧
    key_unique p2 ∧
    p2.length = p1.length ∧
    (∃ r, (list_resource_permissions p2 t rt rid).filter
        (fun p => p.grantee_type == gt && p.grantee_id == gid) = [r] ∧
      r.permission = v2 ∧ r.granted_by = some g2 ∧ r.expires_at = e2) ∧
    (revoke_permission p2 t rt rid gt gid).2 = true ∧
    (revoke_permission p2 t rt rid gt gid).1.length + 1 = p2.length ∧
    (∀ l : List ResourcePermission, key_unique l →
      l.length ≤ (revoke_permission l t rt rid gt gid).1.length + 1 ∧
      ((revoke_permission l t rt rid gt gid).2 = true ↔
        ∃ p ∈ l, grant_key p = (t, rt, rid, gt, gid))) := by
  subst h1
  subst h2
  have ku1 : key_unique (grant_permission perms t rt rid gt gid v1 g1 e1) :=
    grant_permission_preserves_key_unique perms t rt rid gt gid v1 g1 e1 hu
  have ku2 : key_unique (grant_permission
      (grant_permission perms t rt rid gt gid v1 g1 e1) t rt rid gt gid v2 g2 e2) :=
    grant_permission_preserves_key_unique _ t rt rid gt gid v2 g2 e2 ku1
  obtain ⟨r1, hf1, _, _, _, _⟩ :=
    grant_permission_filter perms t rt rid gt gid v1 g1 e1 hu
  have hr1 : r1 ∈ (grant_permission perms t rt rid gt gid v1 g1 e1).filter
      (same_grant_key t rt rid gt gid) := by
    rw [hf1]; exact List.mem_cons_self r1 []
  have hmem1 := List.mem_filter.mp hr1
  have hany1 : (grant_permission perms t rt rid gt gid v1 g1 e1).any
      (same_grant_key t rt rid gt gid) = true :=
    List.any_eq_true.mpr ⟨r1, hmem1.1, hmem1.2⟩
  obtain ⟨r2, hf2, hv2, hg2, he2, _⟩ :=
    grant_permission_filter (grant_permission perms t rt rid gt gid v1 g1 e1)
      t rt rid gt gid v2 g2 e2 ku1
  have hr2 : r2 ∈ (grant_permission (grant_permission perms t rt rid gt gid v1 g1 e1)
      t rt rid gt gid v2 g2 e2).filter (same_grant_key t rt rid gt gid) := by
    rw [hf2]; exact List.mem_cons_self r2 []
  have hmem2 := List.mem_filter.mp hr2
  have hany2 : (grant_permission (grant_permission perms t rt rid gt gid v1 g1 e1)
      t rt rid gt gid v2 g2 e2).any (same_grant_key t rt rid gt gid) = true :=
    List.any_eq_true.mpr ⟨r2, hmem2.1, hmem2.2⟩
  have hwhole := length_filter_not (same_grant_key t rt rid gt gid)
    (grant_permission (grant_permission perms t rt rid gt gid v1 g1 e1)
      t rt rid gt gid v2 g2 e2)
  refine ⟨ku1, ku2, ?_, ⟨r2, ?_, hv2, hg2, he2⟩, hany2, ?_, ?_⟩
  · exact grant_permission_length_of_any t rt rid gt gid v2 g2 e2 _ hany1
  · rw [list_then_grantee_filter]
    exact hf2
  · rw [hf2] at hwhole
    simpa using hwhole
  · intro l hul
    have hle := filter_key_length_le_one t rt rid gt gid l hul
    have heq := length_filter_not (same_grant_key t rt rid gt gid) l
    constructor
    · show l.length ≤ (l.filter (fun p => !(same_grant_key t rt rid gt gid p))).length + 1
      omega
    · show l.any (same_grant_key t rt rid gt gid) = true ↔
        ∃ p ∈ l, grant_key p = (t, rt, rid, gt, gid)
      exact any_key_iff t rt rid gt gid l

def c6_p1 : List ResourcePermission :=
  grant_permission [] "t" ResourceType.document "d" GranteeType.user "1" 33 2 none

def c6_p2 : List ResourcePermission :=
  grant_permission c6_p1 "t" ResourceType.document "d" GranteeType.user "1" 67 3 (some 9)

theorem C6_upsert_uniqueness_witness :
    c6_p2.length = c6_p1.length ∧
    (∃ r, (list_resource_permissions c6_p2 "t" ResourceType.document "d").filter
        (fun p => p.grantee_type == GranteeType.user && p.grantee_id == "1") = [r] ∧
      r.permission = 67 ∧ r.granted_by = some 3 ∧ r.expires_at = some 9) ∧
    (revoke_permission c6_p2 "t" ResourceType.document "d" GranteeType.user "1").2 = true ∧
    (revoke_permission c6_p2 "t" ResourceType.document "d" GranteeType.user "1").1.length + 1 =
      c6_p2.length := by
  have h := C6_upsert_uniqueness [] c6_p1 c6_p2 "t" ResourceType.document "d"
    GranteeType.user "1" 33 67 2 3 none (some 9) (by simp [key_unique]) rfl rfl
  exact ⟨h.2.2.1, h.2.2.2.1, h.2.2.2.2.1, h.2.2.2.2.2.1⟩

/-- C7: on every exit path of the tenant middleware dispatch — success,
a skipped path, tenant not found, tenant inactive, or an exception
thrown by downstream handling — the request-scoped tenant context is
cleared when dispatch finishes, whatever it held before, so no tenant
state leaks to the next request served by the same worker. -/
theorem C7_context_cleared (env : MWEnv) (req : MWRequest) (st : ContextState) :
    (dispatch env req st).2 = ⟨none, none⟩ := by
  unfold dispatch
  by_cases hs : should_skip req.path = true
  · simp only [hs, if_true, TenantContext.clear]
    cases env.downstream_ok <;> rfl
  · simp only [hs, if_false, Bool.false_eq_true]
    rfl

def c7_env : MWEnv := ⟨[], 0, true⟩

def c7_req : MWRequest := ⟨"/api/documents", none, none, none, none⟩

def c7_st : ContextState :=
  ⟨some ⟨"x", "x", "x", TenantStatus.active, none, none⟩, none⟩

theorem C7_context_cleared_witness :
    (dispatch c7_env c7_req c7_st).2 = ⟨none, none⟩ :=
  C7_context_cleared c7_env c7_req c7_st

/-- C8: extract_tenant_id resolves the tenant identifier from the first
available source in the fixed order path parameter, query parameter,
non-empty X-Tenant-ID header, host sub-domain label (rejecting the
reserved labels and hosts with fewer than three dot-separated parts),
and finally the fixed default tenant id, so a request carrying both a
header and a sub-domain resolves by the header and some identifier is
always produced. -/
theorem C8_extract_precedence :
    (∀ (req : MWRequest) (t : String), req.path_tenant_id = some t →
      extract_tenant_id req = t) ∧
    (∀ (req : MWRequest) (t : String), req.path_tenant_id = none →
      req.query_tenant_id = some t → extract_tenant_id req = t) ∧
    (∀ (req : MWRequest) (t : String), req.path_tenant_id = none →
      req.query_tenant_id = none → req.header_tenant_id = some t → t ≠ "" →
      extract_tenant_id req = t) ∧
    (∀ (req : MWRequest) (s : String), req.path_tenant_id = none →
      req.query_tenant_id = none → (req.header_tenant_id).getD "" = "" →
      extract_slug_from_host ((req.host).getD "") = some s → s ≠ "" →
      extract_tenant_id req = s) ∧
    (∀ (req : MWRequest), req.path_tenant_id = none → req.query_tenant_id = none →
      (req.header_tenant_id).getD "" = "" →
      (extract_slug_from_host ((req.host).getD "")).getD "" = "" →
      extract_tenant_id req = DEFAULT_TENANT_ID) ∧
    (∀ (host : String),
      ["www", "api", "admin", "app"].contains
        ((((host.splitOn ":").headD "").splitOn ".").headD "") = true →
      extract_slug_from_host host = none) ∧
    (∀ (host : String), (((host.splitOn ":").headD "").splitOn ".").length < 3 →
      extract_slug_from_host host = none) := by
  refine ⟨?_, ?_, ?_, ?_, ?_, ?_, ?_⟩
  · intro req t h
    simp [extract_tenant_id, h]
  · intro req t hp h
    simp [extract_tenant_id, hp, h]
  · intro req t hp hq h hne
    simp [extract_tenant_id, hp, hq, h, hne]
  · intro req s hp hq hh hs hne
    simp [extract_tenant_id, hp, hq, hh, hs, hne]
  · intro req hp hq hh hs
    simp only [extract_tenant_id, hp, hq, hh]
    cases h : extract_slug_from_host ((req.host).getD "") with
    | none => simp
    | some s =>
      rw [h] at hs
      simp only [Option.getD_some] at hs
      simp [hs]
  · intro host h
    simp only [extract_slug_from_host]
    by_cases hlen : (((host.splitOn ":").headD "").splitOn ".").length ≥ 3
    · rw [if_pos hlen, if_pos h]
    · rw [if_neg hlen]
  · intro host h
    simp only [extract_slug_from_host]
    rw [if_neg (by omega : ¬(((host.splitOn ":").headD "").splitOn ".").length ≥ 3)]

def c8_req : MWRequest :=
  ⟨"/x", none, none, some "acme-id", some "acme.example.com"⟩

theorem C8_extract_precedence_witness :
    extract_tenant_id c8_req = "acme-id" :=
  C8_extract_precedence.2.2.1 c8_req "acme-id" rfl rfl rfl (by decide)

end DocsAgent
